import Mathlib

/-!
Verification of the Room-Enviro-Monitor loop (`src/monitor.py`).

The program is a single-threaded sense→render→log loop.  We embed it
shallowly: real-valued sensor readings become rationals (`ℚ`), the
module-level mutable bindings (`prev_temp`/`prev_humidity`, `history`,
`frame`, and the two append-only log files) become fields of `MonState`,
and one iteration of the `while True:` body becomes the pure function
`step`, which also emits the ordered list of observable `Event`s of the
tick.  Exceptions (sensor read failure, change-log write failure) are
modelled by flags on the tick's input; the `except` handler's behaviour
(skip the rest of the tick, 2-second backoff) is reproduced in `step`.
-/

namespace Monitor

/-- One reading / log line carries a temperature and a humidity. -/
abbrev Pair := ℚ × ℚ

/-- `c_to_f` from monitor.py line 71: `celsius * 9 / 5 + 32`. -/
def c_to_f (celsius : ℚ) : ℚ := celsius * 9 / 5 + 32

/-- Python `int(...)` truncation toward zero on an exact rational. -/
def pyInt (q : ℚ) : ℤ := if q < 0 then -⌊-q⌋ else ⌊q⌋

/-- Temperature bar height, monitor.py line 108: `int((temp_f / 122.0) * 150)`. -/
def temp_bar_height (temp_f : ℚ) : ℤ := pyInt (temp_f / 122 * 150)

/-- Humidity bar height, monitor.py line 112: `int((humidity / 100.0) * 150)`. -/
def hum_bar_height (humidity : ℚ) : ℤ := pyInt (humidity / 100 * 150)

/-- Fill extent of the running indicator, monitor.py line 98:
`progress = (frame % bar_width)` with `bar_width = 50`. -/
def running_indicator_progress (frame : ℕ) : ℕ := frame % 50

/-- `collections.deque(maxlen=cap).append`: append on the right, evicting
from the left when the capacity is exceeded (monitor.py line 69). -/
def dequeAppend {α : Type} (cap : ℕ) (xs : List α) (x : α) : List α :=
  if cap < (xs ++ [x]).length then (xs ++ [x]).drop ((xs ++ [x]).length - cap)
  else xs ++ [x]

/-- Push a whole sequence of samples into an initially empty deque. -/
def dequeOfList {α : Type} (cap : ℕ) (xs : List α) : List α :=
  xs.foldl (dequeAppend cap) []

/-- Mean of the stored Celsius temperatures (monitor.py line 125). -/
def avg_temp_c (history : List Pair) : ℚ :=
  (history.map Prod.fst).sum / history.length

/-- Average temperature in Fahrenheit: conversion applied AFTER averaging
(monitor.py line 126: `avg_temp_f = c_to_f(avg_temp_c)`). -/
def avg_temp_f (history : List Pair) : ℚ := c_to_f (avg_temp_c history)

/-- Mean of the stored humidities (monitor.py line 127). -/
def avg_humidity (history : List Pair) : ℚ :=
  (history.map Prod.snd).sum / history.length

/-- Canvas/display actions performed by `draw_average_display`. -/
inductive CanvasOp : Type
  | clearCanvas
  | textHeader
  | textTemp (temp_f : ℚ)
  | textHumidity (humidity : ℚ)
  | flushCanvas
  | pause (secs : ℕ)
deriving DecidableEq, Repr

/-- `draw_average_display` (monitor.py lines 120-135) as the list of
canvas/display actions it performs: nothing at all when the history is
empty (early `return`), otherwise clear, three text draws, a flush and a
3-second blocking pause. -/
def draw_average_display (history : List Pair) : List CanvasOp :=
  if history.length = 0 then []
  else
    [CanvasOp.clearCanvas, CanvasOp.textHeader,
     CanvasOp.textTemp (avg_temp_f history),
     CanvasOp.textHumidity (avg_humidity history),
     CanvasOp.flushCanvas, CanvasOp.pause 3]

/-- The persistent state owned by the loop across iterations.
`prev` models the module-level pair `prev_temp`/`prev_humidity`
(monitor.py lines 67-68; `none` before the first logged reading — the two
variables are always `None` together or set together at line 159).
`changeLog` and `snapshotLog` model the two append-only files, each line
abstracted to the (temp °F, humidity %) pair it records. -/
structure MonState where
  prev : Option Pair
  history : List Pair
  frame : ℕ
  changeLog : List Pair
  snapshotLog : List Pair
deriving DecidableEq, Repr

/-- The state after module initialisation (monitor.py lines 67-69, 139). -/
def initState : MonState :=
  { prev := none, history := [], frame := 0, changeLog := [], snapshotLog := [] }

/-- Outcome of `sensor.measurements` on a tick: a (Celsius, humidity)
sample, or a raised exception. -/
inductive SensorResult : Type
  | ok (tempC humidity : ℚ)
  | err
deriving DecidableEq, Repr

/-- The environment's input to one tick: the sensor outcome, the two
button states (`true` = pressed, i.e. the active-low input reads false),
and whether the change-log file write raises. -/
structure TickInput where
  sensor : SensorResult
  buttonA : Bool
  buttonB : Bool
  logWriteErr : Bool
deriving DecidableEq, Repr

/-- The change-log guard, monitor.py line 157:
`prev_temp is None or abs(temperature_f - prev_temp) > 0.3 or
 abs(humidity - prev_humidity) > 0.3`. -/
def shouldLog (prev : Option Pair) (temp_f humidity : ℚ) : Bool :=
  match prev with
  | none => true
  | some (pt, ph) => decide (3/10 < |temp_f - pt|) || decide (3/10 < |humidity - ph|)

/-- Observable events of one tick, in the order they occur. -/
inductive Event : Type
  | sensorRead
  | historyAppend (tempC humidity : ℚ)
  | renderMain (temp_f humidity : ℚ) (frame : ℕ)
  | logCheck
  | changeLogAppend (temp_f humidity : ℚ)
  | buttonACheck
  | averageOverlay
  | buttonBCheck
  | snapshotAppend (temp_f humidity : ℚ)
  | sleepSecs (n : ℕ)
  | sensorFault
deriving DecidableEq, Repr

/-- The button-checking tail of a successful tick (monitor.py lines
161-170): check button A (average overlay), then button B (snapshot
append + confirmation overlay), then `time.sleep(1)`. -/
def buttonPhase (s : MonState) (i : TickInput) (temp_f humidity : ℚ)
    (evs : List Event) : MonState × List Event :=
  let evA := if i.buttonA then [Event.buttonACheck, Event.averageOverlay]
             else [Event.buttonACheck]
  let s' := if i.buttonB
            then { s with snapshotLog := s.snapshotLog ++ [(temp_f, humidity)] }
            else s
  let evB := if i.buttonB then [Event.buttonBCheck, Event.snapshotAppend temp_f humidity]
             else [Event.buttonBCheck]
  (s', evs ++ evA ++ evB ++ [Event.sleepSecs 1])

/-- One iteration of the `while True:` body (monitor.py lines 141-175).
A sensor exception is caught by the handler at line 172: nothing of the
tick body runs and the backoff is `time.sleep(2)`.  On a successful read
the tick appends to the history deque, renders, advances the frame
counter by 2, runs the change-log check (a change-log write exception is
also caught at line 172, after the history append and frame advance but
before `prev` is updated and before the button checks), then checks the
two buttons and sleeps 1 second. -/
def step (s : MonState) (i : TickInput) : MonState × List Event :=
  match i.sensor with
  | SensorResult.err =>
      (s, [Event.sensorRead, Event.sensorFault, Event.sleepSecs 2])
  | SensorResult.ok tC h =>
      let tF := c_to_f tC
      let hist' := dequeAppend 900 s.history (tC, h)
      let evs0 := [Event.sensorRead, Event.historyAppend tC h,
                   Event.renderMain tF h s.frame]
      let fr' := s.frame + 2
      if shouldLog s.prev tF h then
        if i.logWriteErr then
          ({ s with history := hist', frame := fr' },
           evs0 ++ [Event.logCheck, Event.sleepSecs 2])
        else
          let s1 : MonState :=
            ⟨some (tF, h), hist', fr', s.changeLog ++ [(tF, h)], s.snapshotLog⟩
          buttonPhase s1 i tF h (evs0 ++ [Event.logCheck, Event.changeLogAppend tF h])
      else
        buttonPhase { s with history := hist', frame := fr' }
          i tF h (evs0 ++ [Event.logCheck])

/-- Run the loop over a list of tick inputs. -/
def run (s : MonState) (is : List TickInput) : MonState :=
  is.foldl (fun s i => (step s i).1) s

/-! ### Ring-buffer lemmas -/

theorem dequeAppend_eq_drop {α : Type} (cap : ℕ) (xs : List α) (x : α) :
    dequeAppend cap xs x = (xs ++ [x]).drop (xs.length + 1 - cap) := by
  unfold dequeAppend
  have hl : (xs ++ [x]).length = xs.length + 1 := by simp
  split
  · rw [hl]
  · rename_i hcap
    rw [hl] at hcap
    have hz : xs.length + 1 - cap = 0 := by omega
    rw [hz, List.drop_zero]

theorem foldl_dequeAppend_eq_drop {α : Type} (cap : ℕ) :
    ∀ (xs acc : List α), acc.length ≤ cap →
      xs.foldl (dequeAppend cap) acc =
        (acc ++ xs).drop (acc.length + xs.length - cap)
  | [], acc, h => by
      simp only [List.foldl_nil, List.append_nil, List.length_nil, Nat.add_zero]
      have hz : acc.length - cap = 0 := by omega
      rw [hz, List.drop_zero]
  | x :: t, acc, h => by
      have hlen : (dequeAppend cap acc x).length ≤ cap := by
        rw [dequeAppend_eq_drop]
        simp only [List.length_drop, List.length_append, List.length_singleton]
        omega
      have hstep : dequeAppend cap acc x = (acc ++ [x]).drop (acc.length + 1 - cap) :=
        dequeAppend_eq_drop cap acc x
      rw [List.foldl_cons, foldl_dequeAppend_eq_drop cap t (dequeAppend cap acc x) hlen,
          hstep]
      have hd : (acc ++ [x]).drop (acc.length + 1 - cap) ++ t
          = ((acc ++ [x]) ++ t).drop (acc.length + 1 - cap) :=
        (List.drop_append_of_le_length
          (by simp only [List.length_append, List.length_singleton]; omega)).symm
      rw [hd, List.drop_drop, List.length_drop]
      have hconcat : acc ++ x :: t = (acc ++ [x]) ++ t := by simp
      rw [hconcat]
      congr 1
      simp only [List.length_append, List.length_singleton, List.length_cons,
        List.length_nil]
      omega

/-! ### Claim theorems -/

/-- C4: for every sequence of samples pushed into the 900-capacity deque,
the resulting buffer is exactly the most recent `min(total, 900)` samples
in arrival order (i.e. the input sequence with its oldest excess dropped),
and its length is `min(total, 900)`; moreover each successful tick of the
loop pushes via exactly this deque append. -/
theorem history_ring_buffer (xs : List Pair) (s : MonState) (tC h : ℚ)
    (bA bB lf : Bool) :
    (dequeOfList 900 xs).length = min xs.length 900 ∧
    dequeOfList 900 xs = xs.drop (xs.length - 900) ∧
    (step s ⟨SensorResult.ok tC h, bA, bB, lf⟩).1.history =
      dequeAppend 900 s.history (tC, h) := by
  have hmain := foldl_dequeAppend_eq_drop 900 xs [] (by simp)
  simp only [List.nil_append, List.length_nil, Nat.zero_add] at hmain
  refine ⟨?_, ?_, ?_⟩
  · rw [dequeOfList, hmain, List.length_drop]; omega
  · rw [dequeOfList, hmain]
  · cases hsl : shouldLog s.prev (c_to_f tC) h <;> cases lf <;> cases bB <;>
      simp [step, buttonPhase, hsl]

/-- C5: with an empty history, `draw_average_display` performs no canvas
action at all (early return: no draw, no flush, no pause) and raises no
exception (it is a total function). -/
theorem draw_average_display_empty_noop : draw_average_display [] = [] := rfl

/-- C3: the displayed average temperature is the mean of the stored
Celsius samples converted to Fahrenheit after averaging, the displayed
humidity is the unweighted mean of the stored humidities, and on the
samples [(20,50), (22,52)] these come to 69.8 °F and 51 %. -/
theorem average_after_conversion :
    (∀ history : List Pair, avg_temp_f history = c_to_f (avg_temp_c history)) ∧
    (∀ history : List Pair,
      history.length ≠ 0 →
        draw_average_display history =
          [CanvasOp.clearCanvas, CanvasOp.textHeader,
           CanvasOp.textTemp (avg_temp_f history),
           CanvasOp.textHumidity (avg_humidity history),
           CanvasOp.flushCanvas, CanvasOp.pause 3]) ∧
    avg_temp_f [(20, 50), (22, 52)] = 69.8 ∧
    avg_humidity [(20, 50), (22, 52)] = 51 := by
  refine ⟨fun _ => rfl, fun hist hne => by simp [draw_average_display, hne], ?_, ?_⟩ <;>
    norm_num [avg_temp_f, avg_temp_c, avg_humidity, c_to_f]

/-- C3 witness: the second conjunct instantiated at the concrete
two-sample history. -/
theorem average_after_conversion_witness :
    draw_average_display [((20 : ℚ), (50 : ℚ)), (22, 52)] =
      [CanvasOp.clearCanvas, CanvasOp.textHeader,
       CanvasOp.textTemp (avg_temp_f [(20, 50), (22, 52)]),
       CanvasOp.textHumidity (avg_humidity [(20, 50), (22, 52)]),
       CanvasOp.flushCanvas, CanvasOp.pause 3] :=
  average_after_conversion.2.1 [(20, 50), (22, 52)] (by simp)

/-- C8: the bar heights are `int((temp_f / 122.0) * 150)` and
`int((humidity / 100.0) * 150)` with Python truncation and no clamping:
61 °F gives 75 px, 50 % humidity gives 75 px, and an out-of-range 244 °F
gives 300 px (beyond the 150 px nominal maximum, so no clamp). -/
theorem bar_heights :
    (∀ t : ℚ, temp_bar_height t = pyInt (t / 122 * 150)) ∧
    (∀ hu : ℚ, hum_bar_height hu = pyInt (hu / 100 * 150)) ∧
    temp_bar_height 61 = 75 ∧
    hum_bar_height 50 = 75 ∧
    temp_bar_height 244 = 300 := by
  refine ⟨fun _ => rfl, fun _ => rfl, ?_, ?_, ?_⟩ <;>
    norm_num [temp_bar_height, hum_bar_height, pyInt]

/-- C1: on a successful tick the change-log guard is true exactly when no
reading was logged yet or one of the two deltas against the last-logged
pair strictly exceeds 0.3 (OR across the fields); a line with the current
(temp °F, humidity) is appended exactly when the guard fires, and the
last-logged pair is updated to the current reading exactly then,
persisting unchanged otherwise. -/
theorem change_log_threshold_and_prev_update (s : MonState) (tC h : ℚ)
    (bA bB : Bool) :
    (shouldLog s.prev (c_to_f tC) h = true ↔
      (s.prev = none ∨ ∃ pt ph, s.prev = some (pt, ph) ∧
        (3/10 < |c_to_f tC - pt| ∨ 3/10 < |h - ph|))) ∧
    (step s ⟨SensorResult.ok tC h, bA, bB, false⟩).1.changeLog =
      s.changeLog ++
        (if shouldLog s.prev (c_to_f tC) h then [(c_to_f tC, h)] else []) ∧
    (step s ⟨SensorResult.ok tC h, bA, bB, false⟩).1.prev =
      (if shouldLog s.prev (c_to_f tC) h then some (c_to_f tC, h) else s.prev) := by
  refine ⟨?_, ?_, ?_⟩
  · cases hp : s.prev with
    | none => simp [shouldLog]
    | some p =>
        obtain ⟨pt, ph⟩ := p
        simp only [shouldLog, Bool.or_eq_true, decide_eq_true_eq,
          Option.some.injEq, Prod.mk.injEq, reduceCtorEq, false_or]
        constructor
        · intro hx; exact ⟨pt, ph, ⟨rfl, rfl⟩, hx⟩
        · rintro ⟨pt', ph', ⟨rfl, rfl⟩, hx⟩; exact hx
  · cases hsl : shouldLog s.prev (c_to_f tC) h <;> cases bB <;>
      simp [step, buttonPhase, hsl]
  · cases hsl : shouldLog s.prev (c_to_f tC) h <;> cases bB <;>
      simp [step, buttonPhase, hsl]

/-- C2: a sensor read failure leaves the entire state untouched (no
history append, no advance of the last-logged pair, no change-log or
snapshot line) and the tick ends with a 2-second backoff, while a
successful tick ends with the normal 1-second sleep; the loop continues
in both cases (`step` always yields a next state). -/
theorem sensor_fault_tick (s : MonState) (bA bB lf : Bool) (tC h : ℚ) :
    step s ⟨SensorResult.err, bA, bB, lf⟩ =
      (s, [Event.sensorRead, Event.sensorFault, Event.sleepSecs 2]) ∧
    ((step s ⟨SensorResult.ok tC h, bA, bB, false⟩).2).getLast? =
      some (Event.sleepSecs 1) := by
  refine ⟨rfl, ?_⟩
  cases hsl : shouldLog s.prev (c_to_f tC) h <;> cases bA <;> cases bB <;>
    simp [step, buttonPhase, hsl, List.getLast?_concat]

/-- C6: on a successful tick exactly one line, carrying that tick's
reading (temp °F, humidity), is appended to the snapshot log when button
B is pressed and none otherwise — for every state (hence independent of
whether a change-log line was also written) and for every button-A state. -/
theorem snapshot_per_buttonB (s : MonState) (tC h : ℚ) (bA bB : Bool) :
    (step s ⟨SensorResult.ok tC h, bA, bB, false⟩).1.snapshotLog =
      s.snapshotLog ++ (if bB then [(c_to_f tC, h)] else []) := by
  cases hsl : shouldLog s.prev (c_to_f tC) h <;> cases bB <;>
    simp [step, buttonPhase, hsl]

/-- C7: the event trace of a successful tick is exactly sensor read,
history append, render, log check (with the conditional change-log
write), button-A check (with its conditional overlay), button-B check
(with its conditional snapshot), sleep — in that strict order, the two
button checks independent so both overlays can fire in the same tick,
average view before snapshot view. -/
theorem tick_event_order (s : MonState) (tC h : ℚ) (bA bB : Bool) :
    (step s ⟨SensorResult.ok tC h, bA, bB, false⟩).2 =
      [Event.sensorRead, Event.historyAppend tC h,
       Event.renderMain (c_to_f tC) h s.frame, Event.logCheck] ++
      (if shouldLog s.prev (c_to_f tC) h
        then [Event.changeLogAppend (c_to_f tC) h] else []) ++
      [Event.buttonACheck] ++
      (if bA then [Event.averageOverlay] else []) ++
      [Event.buttonBCheck] ++
      (if bB then [Event.snapshotAppend (c_to_f tC) h] else []) ++
      [Event.sleepSecs 1] := by
  cases hsl : shouldLog s.prev (c_to_f tC) h <;> cases bA <;> cases bB <;>
    simp [step, buttonPhase, hsl]

/-- C9: the running-indicator fill extends `frame mod 50` pixels (0 at
frame 0, 48 at frame 48, wrapping to 0 at frame 50), the frame counter
advances by exactly 2 on every tick whose sensor read succeeds (even if
the later change-log write fails), and no tick ever resets or decreases
it. -/
theorem running_indicator_and_frame (s : MonState) (tC h : ℚ)
    (bA bB lf : Bool) (i : TickInput) :
    running_indicator_progress 0 = 0 ∧
    running_indicator_progress 48 = 48 ∧
    running_indicator_progress 50 = 0 ∧
    (step s ⟨SensorResult.ok tC h, bA, bB, lf⟩).1.frame = s.frame + 2 ∧
    s.frame ≤ (step s i).1.frame := by
  refine ⟨rfl, rfl, rfl, ?_, ?_⟩
  · cases hsl : shouldLog s.prev (c_to_f tC) h <;> cases lf <;> cases bB <;>
      simp [step, buttonPhase, hsl]
  · obtain ⟨sr, iA, iB, ilf⟩ := i
    cases sr with
    | err => simp [step]
    | ok tC' h' =>
        cases hsl : shouldLog s.prev (c_to_f tC') h' <;> cases ilf <;> cases iB <;>
          simp [step, buttonPhase, hsl]

/-- C10: when the change-log guard fires but the file write raises, the
last-logged pair is left unchanged (it is only updated after the write
returns), no change-log line lands, the history append earlier in the
tick is not rolled back, and the same reading re-triggers the guard on
the next tick. -/
theorem log_write_fault_preserves_prev (s : MonState) (tC h : ℚ)
    (bA bB : Bool) (hs : shouldLog s.prev (c_to_f tC) h = true) :
    (step s ⟨SensorResult.ok tC h, bA, bB, true⟩).1.prev = s.prev ∧
    (step s ⟨SensorResult.ok tC h, bA, bB, true⟩).1.history =
      dequeAppend 900 s.history (tC, h) ∧
    (step s ⟨SensorResult.ok tC h, bA, bB, true⟩).1.changeLog = s.changeLog ∧
    shouldLog (step s ⟨SensorResult.ok tC h, bA, bB, true⟩).1.prev (c_to_f tC) h
      = true := by
  simp [step, hs]

/-- C10 witness: from the initial state (nothing logged yet, so the guard
fires) a failing change-log write leaves the last-logged pair at `none`. -/
theorem log_write_fault_preserves_prev_witness :
    (step initState ⟨SensorResult.ok 20 50, false, false, true⟩).1.prev = none :=
  (log_write_fault_preserves_prev initState 20 50 false false rfl).1

end Monitor
